import Mathlib

/-!
Verification development for the dirigera-rs client library.

The repository is a client for the IKEA Dirigera hub.  The claims under
study concern the device mutation operations of `src/hub.rs`, the
authentication handshake of `src/connect.rs`, and the optional datetime
deserializer of `src/lib.rs`.  These are embedded shallowly below:

* Every mutation operation in `hub.rs` is an `async fn` that takes
  `&mut Device`, performs capability / range validation, issues one
  HTTP PATCH through `reqwest`, and on a returned response mutates the
  device's cached attributes.  We embed each operation as a pure
  function from the device, the operation arguments and the outcome of
  the single `send()` call to a `MutationOutcome` holding the returned
  `Result`, the final device state (the `&mut` parameter after the
  call) and the attribute map of the PATCH request, if one was issued.
  Crucially, `reqwest`'s `send()` resolves to `Ok(response)` for any
  HTTP status, including non-2xx; only transport failures produce
  `Err`.  None of the operations call `error_for_status()` or inspect
  the response, so the embedding distinguishes only `transportError`
  from `response status`.  URL construction and body serialization
  (`make_url`, `serde_json::to_string`) are infallible on the values
  these operations build and are treated as such.

* `connect.rs` extracts the `code` / `access_token` fields from JSON
  responses using `serde_json::Value::get` followed by `.to_string()`.
  `Value`'s `Display` (hence `to_string`) renders the value as JSON
  text, so a JSON string value renders WITH surrounding quote
  characters.  We embed a small JSON value type with `get` and the
  JSON rendering to capture this.

* `lib.rs`'s `deserialize_datetime` first deserializes a `String`
  (failing if the input is not a JSON string) and then parses it with
  `chrono` (an external black box, taken as a parameter here);
  `deserialize_datetime_optional` maps any error of the former to
  `Ok(None)`.

`device.rs` is not part of the sources under study; the `Device` data
model (attribute bag, capability enum, startup enum) is reconstructed
from the spec's data-model section and from its uses in `hub.rs`.
`f64`-valued hue and saturation are modelled as `ℚ`: the operations
only compare them against constant bounds and store them, performing
no arithmetic.
-/

namespace Dirigera

/-- Modelled from the spec: the closed capability enum of `device.rs`
(not under the sources studied); the variants are those named in the
spec's data model and used by `hub.rs`. -/
inductive Capability where
  | customName
  | isOn
  | lightLevel
  | colorTemperature
  | colorHue
  | colorSaturation
  | blindsState
  deriving DecidableEq, Repr

/-- Modelled from the spec: the startup behaviour enum (`startupOnOff`)
of `device.rs` (not under the sources studied); the spec only requires
it to be a closed enum. -/
inductive Startup where
  | startOn
  | startOff
  | startPrevious
  | startTogglePrevious
  deriving DecidableEq, Repr

/-- Modelled from the spec: the device attribute bag of `device.rs`
(not under the sources studied).  Field names and types follow the
spec's data model and their uses in `hub.rs`: `custom_name` is plain
(assigned a `String` in `rename`), the rest are `Option`-typed;
`u8`/`u16` levels become `Nat`, `f64` hue/saturation become `ℚ`. -/
structure Attributes where
  custom_name : String
  is_on : Option Bool
  light_level : Option Nat
  color_temperature : Option Nat
  color_temperature_min : Option Nat
  color_temperature_max : Option Nat
  color_hue : Option ℚ
  color_saturation : Option ℚ
  startup_on_off : Option Startup
  blinds_target_level : Option Nat
  deriving DecidableEq, Repr

/-- Modelled from the spec: the capability sets of a device
(`can_receive`: operations the hub accepts; `can_send`: operations the
device reports). -/
structure Capabilities where
  can_receive : List Capability
  can_send : List Capability
  deriving DecidableEq, Repr

/-- Modelled from the spec: a device record — identifier, capability
sets and attribute bag (the fields of `device.rs` that `hub.rs`
reaches through `inner_mut()`). -/
structure Device where
  id : String
  capabilities : Capabilities
  attributes : Attributes
  deriving DecidableEq, Repr

/-- `hub.rs` `has_capability`: every required capability is contained
in the `got` slice. -/
def has_capability (got : List Capability) (required : List Capability) : Bool :=
  required.all (fun item => got.contains item)

/-- Outcome of the one `reqwest` `send()` call of a mutation
operation: either a transport error (connection, TLS, ...) — the only
case in which `send()` returns `Err` — or an HTTP response carrying
some status code.  `reqwest` does NOT turn a non-2xx status into an
error, and `hub.rs` never calls `error_for_status()`. -/
inductive SendOutcome where
  | transportError (msg : String)
  | response (status : Nat)
  deriving DecidableEq, Repr

/-- An attribute value as placed in the PATCH body's attribute map by
`hub.rs` (booleans, integer levels, `f64` hue/saturation as `ℚ`,
strings, startup enum). -/
inductive AttrVal where
  | b (x : Bool)
  | n (x : Nat)
  | q (x : ℚ)
  | s (x : String)
  | st (x : Startup)
  deriving DecidableEq, Repr

/-- Result of running one mutation operation of `hub.rs`: the
`anyhow::Result<()>` it returns (errors carried as their message), the
final state of the `&mut Device` argument, and the attribute map of
the issued PATCH request — `none` when the operation bailed before
sending anything. -/
structure MutationOutcome where
  result : Except String Unit
  device : Device
  request : Option (List (String × AttrVal))
  deriving Repr

/-- `true` iff an operation's `anyhow::Result<()>` is an error. -/
def resultErrored : Except String Unit → Bool
  | Except.error _ => true
  | Except.ok _ => false

namespace Hub

/-- `hub.rs` `Hub::rename`: gate on `CustomName`, PATCH
`{"attributes": {"customName": new_name}}`, then cache the new name. -/
def rename (send : SendOutcome) (device : Device) (new_name : String) :
    MutationOutcome :=
  if !has_capability device.capabilities.can_receive [Capability.customName] then
    ⟨Except.error "device cannot change name", device, none⟩
  else
    let req := [("customName", AttrVal.s new_name)]
    match send with
    | SendOutcome.transportError msg => ⟨Except.error msg, device, some req⟩
    | SendOutcome.response _ =>
        ⟨Except.ok (),
         { device with attributes := { device.attributes with custom_name := new_name } },
         some req⟩

/-- `hub.rs` `Hub::toggle_on_off`: gate on `IsOn`; the body's
attribute map gets `"isOn": !x` only when the cached `is_on` is
`Some(x)` (it stays empty otherwise), the PATCH is sent either way,
and on a response the cached `is_on` is mapped through negation. -/
def toggle_on_off (send : SendOutcome) (device : Device) : MutationOutcome :=
  if !has_capability device.capabilities.can_receive [Capability.isOn] then
    ⟨Except.error "device cannot be toggled", device, none⟩
  else
    let req :=
      match device.attributes.is_on with
      | none => []
      | some x => [("isOn", AttrVal.b (!x))]
    match send with
    | SendOutcome.transportError msg => ⟨Except.error msg, device, some req⟩
    | SendOutcome.response _ =>
        ⟨Except.ok (),
         { device with attributes :=
             { device.attributes with is_on := device.attributes.is_on.map (fun x => !x) } },
         some req⟩

/-- `hub.rs` `Hub::set_light_level`: gate on `LightLevel`, reject
`level > 100`, PATCH `{"lightLevel": level}`, cache the new level. -/
def set_light_level (send : SendOutcome) (device : Device) (level : Nat) :
    MutationOutcome :=
  if !has_capability device.capabilities.can_receive [Capability.lightLevel] then
    ⟨Except.error "device cannot set light level", device, none⟩
  else if level > 100 then
    ⟨Except.error "level must be between 0.0 -> 100.0", device, none⟩
  else
    let req := [("lightLevel", AttrVal.n level)]
    match send with
    | SendOutcome.transportError msg => ⟨Except.error msg, device, some req⟩
    | SendOutcome.response _ =>
        ⟨Except.ok (),
         { device with attributes := { device.attributes with light_level := some level } },
         some req⟩

/-- `hub.rs` `Hub::set_temperature`: gate on `ColorTemperature`,
require both cached bounds, accept exactly when the requested value
lies in the (descending) range `max..=min`, PATCH
`{"colorTemperature": temperature}`, cache the new temperature. -/
def set_temperature (send : SendOutcome) (device : Device) (temperature : Nat) :
    MutationOutcome :=
  if !has_capability device.capabilities.can_receive [Capability.colorTemperature] then
    ⟨Except.error "device cannot set color temperature", device, none⟩
  else
    match device.attributes.color_temperature_min with
    | none => ⟨Except.error "device has no min temperature value", device, none⟩
    | some tmin =>
      match device.attributes.color_temperature_max with
      | none => ⟨Except.error "device has no max temperature value", device, none⟩
      | some tmax =>
        if tmax ≤ temperature ∧ temperature ≤ tmin then
          let req := [("colorTemperature", AttrVal.n temperature)]
          match send with
          | SendOutcome.transportError msg => ⟨Except.error msg, device, some req⟩
          | SendOutcome.response _ =>
              ⟨Except.ok (),
               { device with attributes :=
                   { device.attributes with color_temperature := some temperature } },
               some req⟩
        else
          ⟨Except.error "color temperature not within bounds", device, none⟩

/-- `hub.rs` `Hub::set_hue_saturation`: gate on both `ColorHue` and
`ColorSaturation`, require `hue ∈ [0, 360]` and `saturation ∈ [0, 1]`,
PATCH both values, then cache — setting BOTH `color_hue` and
`color_saturation` to `Some(hue)` (lines 342-343 of `hub.rs`). -/
def set_hue_saturation (send : SendOutcome) (device : Device)
    (hue : ℚ) (saturation : ℚ) : MutationOutcome :=
  if !has_capability device.capabilities.can_receive
      [Capability.colorHue, Capability.colorSaturation] then
    ⟨Except.error "device cannot be change for hue and saturation", device, none⟩
  else if ¬(0 ≤ hue ∧ hue ≤ 360) then
    ⟨Except.error "hue must be between 0.0 -> 360.0", device, none⟩
  else if ¬(0 ≤ saturation ∧ saturation ≤ 1) then
    ⟨Except.error "hue must be between 0.0 -> 1.0", device, none⟩
  else
    let req := [("colorHue", AttrVal.q hue), ("colorSaturation", AttrVal.q saturation)]
    match send with
    | SendOutcome.transportError msg => ⟨Except.error msg, device, some req⟩
    | SendOutcome.response _ =>
        ⟨Except.ok (),
         { device with attributes :=
             { device.attributes with
                 color_hue := some hue
                 color_saturation := some hue } },
         some req⟩

/-- `hub.rs` `Hub::set_startup_behaviour`: no capability gate, PATCH
`{"startupOnOff": behaviour}`, cache the new behaviour. -/
def set_startup_behaviour (send : SendOutcome) (device : Device)
    (behaviour : Startup) : MutationOutcome :=
  let req := [("startupOnOff", AttrVal.st behaviour)]
  match send with
  | SendOutcome.transportError msg => ⟨Except.error msg, device, some req⟩
  | SendOutcome.response _ =>
      ⟨Except.ok (),
       { device with attributes :=
           { device.attributes with startup_on_off := some behaviour } },
       some req⟩

/-- `hub.rs` `Hub::set_target_level`: gate on `BlindsState`, reject
`level > 100`, PATCH `{"blindsTargetLevel": level}`, cache the new
target level. -/
def set_target_level (send : SendOutcome) (device : Device) (level : Nat) :
    MutationOutcome :=
  if !has_capability device.capabilities.can_receive [Capability.blindsState] then
    ⟨Except.error "device cannot be change for blind state", device, none⟩
  else if level > 100 then
    ⟨Except.error "level must be between 0.0 -> 100.0", device, none⟩
  else
    let req := [("blindsTargetLevel", AttrVal.n level)]
    match send with
    | SendOutcome.transportError msg => ⟨Except.error msg, device, some req⟩
    | SendOutcome.response _ =>
        ⟨Except.ok (),
         { device with attributes :=
             { device.attributes with blinds_target_level := some level } },
         some req⟩

end Hub

/-! ### JSON values and the authentication handshake (`connect.rs`) -/

/-- A JSON value, as `serde_json::Value` (numbers restricted to
integers; the handshake fields are strings). -/
inductive Json where
  | null
  | bool (b : Bool)
  | num (n : Int)
  | str (s : String)
  | obj (fields : List (String × Json))
  deriving Repr

/-- `serde_json::Value::get(key)`: look a key up in an object, `None`
for any other value kind. -/
def Json.get (j : Json) (key : String) : Option Json :=
  match j with
  | Json.obj fields => fields.lookup key
  | _ => none

/-- JSON string escaping as performed by `serde_json` when printing a
string value: quote and backslash characters (codes 34 and 92) are
preceded by a backslash.  (Control-character escapes do not occur in
the inputs under study.) -/
def escapeJsonString (s : String) : String :=
  String.mk (s.data.foldr
    (fun c acc =>
      if c.toNat = 34 ∨ c.toNat = 92 then Char.ofNat 92 :: c :: acc else c :: acc)
    [])

mutual

/-- `serde_json::Value`'s `Display` (hence `.to_string()`): render the
value as JSON text.  In particular a string value renders WITH
surrounding quote characters. -/
def Json.render : Json → String
  | Json.null => "null"
  | Json.bool b => cond b "true" "false"
  | Json.num n => toString n
  | Json.str s => "\"" ++ escapeJsonString s ++ "\""
  | Json.obj fields => "\x7b" ++ Json.renderFields fields ++ "\x7d"

/-- Renders the comma-separated field list of a JSON object. -/
def Json.renderFields : List (String × Json) → String
  | [] => ""
  | [(k, v)] => "\"" ++ escapeJsonString k ++ "\":" ++ Json.render v
  | (k, v) :: rest =>
      "\"" ++ escapeJsonString k ++ "\":" ++ Json.render v ++ "," ++
        Json.renderFields rest

end

/-- The error enum of `errors.rs` (message-carrying variants keep
their message as a string). -/
inductive Error where
  | headerError (msg : String)
  | buildError (msg : String)
  | urlBuilder (msg : String)
  | tokenNotFound
  | generic
  | utf8ParseError (msg : String)
  | urlParseError (msg : String)
  | codeNotFound
  deriving DecidableEq, Repr

/-- The `Connect` session of `connect.rs` (the `reqwest` client and
the hub IP carry no data relevant here and are omitted). -/
structure Connect where
  code : String
  code_verifier : String
  deriving DecidableEq, Repr

/-- `connect.rs` `Connect::new`, given the PKCE code verifier (random
bytes, already lossily decoded to a string) and the hub's parsed JSON
response to `GET /v1/oauth/authorize`: extract the `code` field
(failing with `CodeNotFound` when absent) and store its
`.to_string()` rendering together with the verifier. -/
def Connect.new (code_verify : String) (response : Json) : Except Error Connect :=
  match response.get "code" with
  | none => Except.error Error.codeNotFound
  | some v => Except.ok { code := v.render, code_verifier := code_verify }

/-- `connect.rs` `Connect::verify`, given the hub's parsed JSON
response to `POST /v1/oauth/token`: extract the `access_token` field,
returning its `.to_string()` rendering, or fail with
`TokenNotFound`.  (The request parameters built from `self.code` and
`self.code_verifier` do not affect the returned value.) -/
def Connect.verify (_c : Connect) (response : Json) : Except Error String :=
  match response.get "access_token" with
  | none => Except.error Error.tokenNotFound
  | some v => Except.ok v.render

/-! ### Optional datetime deserialization (`lib.rs`) -/

/-- `String::deserialize`: succeeds exactly on a JSON string input. -/
def string_deserialize : Json → Except String String
  | Json.str s => Except.ok s
  | _ => Except.error "invalid type: expected a string"

/-- `lib.rs` `deserialize_datetime`: deserialize a string, then parse
it as a datetime; the `chrono` parser is an external black box, taken
here as the parameter `parse` (returning `none` on parse failure). -/
def deserialize_datetime {α : Type} (parse : String → Option α)
    (input : Json) : Except String α :=
  match string_deserialize input with
  | Except.error e => Except.error e
  | Except.ok date_str =>
    match parse date_str with
    | some system_time => Except.ok system_time
    | none => Except.error "Invalid date format"

/-- `lib.rs` `deserialize_datetime_optional`: wrap a successful
`deserialize_datetime` in `Some`, and turn ANY of its errors into
`Ok(None)`. -/
def deserialize_datetime_optional {α : Type} (parse : String → Option α)
    (input : Json) : Except String (Option α) :=
  match deserialize_datetime parse input with
  | Except.ok system_time => Except.ok (some system_time)
  | Except.error _ => Except.ok none

/-! ### Sample devices used by witnesses and counterexamples -/

/-- An attribute bag with every cached field populated. -/
def sampleAttrs : Attributes :=
  { custom_name := "lamp"
    is_on := some false
    light_level := some 50
    color_temperature := some 3000
    color_temperature_min := some 4000
    color_temperature_max := some 2202
    color_hue := some 0
    color_saturation := some 0
    startup_on_off := some Startup.startOn
    blinds_target_level := some 0 }

/-- A device that can receive every capability. -/
def sampleDevice : Device :=
  { id := "abc123"
    capabilities :=
      { can_receive :=
          [Capability.customName, Capability.isOn, Capability.lightLevel,
           Capability.colorTemperature, Capability.colorHue,
           Capability.colorSaturation, Capability.blindsState]
        can_send := [] }
    attributes := sampleAttrs }

/-- A device with an empty `can_receive` capability set. -/
def gatedDevice : Device :=
  { id := "abc123"
    capabilities := { can_receive := [], can_send := [] }
    attributes := sampleAttrs }

/-- A toggleable device whose cached `is_on` is absent. -/
def unknownOnOffDevice : Device :=
  { sampleDevice with attributes := { sampleAttrs with is_on := none } }

/-! ### Claims about the mutation operations -/

/-- Claim C1, counterexample: a non-2xx response from the hub is NOT
turned into an error by `rename` — `reqwest`'s `send()` only fails on
transport errors and `hub.rs` never inspects the status — so on a 500
response the operation returns `Ok(())` and the cached `custom_name`
is overwritten, contradicting the claim that every non-success HTTP
exchange yields an error with the cache unchanged. -/
theorem non2xx_response_mutates_cache_counterexample :
    (Hub.rename (SendOutcome.response 500) sampleDevice "newname").result =
      Except.ok () ∧
    (Hub.rename (SendOutcome.response 500) sampleDevice "newname").device.attributes.custom_name =
      "newname" ∧
    sampleDevice.attributes.custom_name = "lamp" :=
  ⟨rfl, rfl, rfl⟩

/-- Claim C1, amended: for every device mutation operation, whenever
the HTTP exchange fails with a TRANSPORT error, the operation returns
an error and the device's cached attributes are left completely
unchanged.  (A non-2xx response is not detected as a failure: the
operation then succeeds and updates the cache.) -/
theorem mutation_transport_error_leaves_cache_unchanged
    (msg : String) (d : Device) (n : String) (lvl t : Nat) (hu sa : ℚ)
    (beh : Startup) (tl : Nat) :
    (resultErrored (Hub.rename (SendOutcome.transportError msg) d n).result = true ∧
      (Hub.rename (SendOutcome.transportError msg) d n).device = d) ∧
    (resultErrored (Hub.toggle_on_off (SendOutcome.transportError msg) d).result = true ∧
      (Hub.toggle_on_off (SendOutcome.transportError msg) d).device = d) ∧
    (resultErrored (Hub.set_light_level (SendOutcome.transportError msg) d lvl).result = true ∧
      (Hub.set_light_level (SendOutcome.transportError msg) d lvl).device = d) ∧
    (resultErrored (Hub.set_temperature (SendOutcome.transportError msg) d t).result = true ∧
      (Hub.set_temperature (SendOutcome.transportError msg) d t).device = d) ∧
    (resultErrored (Hub.set_hue_saturation (SendOutcome.transportError msg) d hu sa).result = true ∧
      (Hub.set_hue_saturation (SendOutcome.transportError msg) d hu sa).device = d) ∧
    (resultErrored (Hub.set_startup_behaviour (SendOutcome.transportError msg) d beh).result = true ∧
      (Hub.set_startup_behaviour (SendOutcome.transportError msg) d beh).device = d) ∧
    (resultErrored (Hub.set_target_level (SendOutcome.transportError msg) d tl).result = true ∧
      (Hub.set_target_level (SendOutcome.transportError msg) d tl).device = d) := by
  refine ⟨?_, ?_, ?_, ?_, ?_, ?_, ?_⟩
  · cases hcap : has_capability d.capabilities.can_receive [Capability.customName] <;>
      simp [Hub.rename, hcap, resultErrored]
  · cases hcap : has_capability d.capabilities.can_receive [Capability.isOn] <;>
      simp [Hub.toggle_on_off, hcap, resultErrored]
  · cases hcap : has_capability d.capabilities.can_receive [Capability.lightLevel]
    · simp [Hub.set_light_level, hcap, resultErrored]
    · by_cases hl : lvl > 100 <;> simp [Hub.set_light_level, hcap, hl, resultErrored]
  · cases hcap : has_capability d.capabilities.can_receive [Capability.colorTemperature]
    · simp [Hub.set_temperature, hcap, resultErrored]
    · cases hmin : d.attributes.color_temperature_min with
      | none => simp [Hub.set_temperature, hcap, hmin, resultErrored]
      | some tmin =>
        cases hmax : d.attributes.color_temperature_max with
        | none => simp [Hub.set_temperature, hcap, hmin, hmax, resultErrored]
        | some tmax =>
          by_cases hr : tmax ≤ t ∧ t ≤ tmin <;>
            simp [Hub.set_temperature, hcap, hmin, hmax, hr, resultErrored]
  · cases hcap : has_capability d.capabilities.can_receive
        [Capability.colorHue, Capability.colorSaturation]
    · simp [Hub.set_hue_saturation, hcap, resultErrored]
    · by_cases hh : 0 ≤ hu ∧ hu ≤ 360
      · by_cases hs : 0 ≤ sa ∧ sa ≤ 1 <;>
          simp [Hub.set_hue_saturation, hcap, hh, hs, resultErrored]
      · simp [Hub.set_hue_saturation, hcap, hh, resultErrored]
  · simp [Hub.set_startup_behaviour, resultErrored]
  · cases hcap : has_capability d.capabilities.can_receive [Capability.blindsState]
    · simp [Hub.set_target_level, hcap, resultErrored]
    · by_cases hl : tl > 100 <;> simp [Hub.set_target_level, hcap, hl, resultErrored]

/-- Claim C2: every gated mutation operation, on a device whose
`can_receive` set lacks the operation's required capability (rename:
`CustomName`; toggle: `IsOn`; light level: `LightLevel`; temperature:
`ColorTemperature`; hue/saturation: `ColorHue` and `ColorSaturation`;
target level: `BlindsState`), returns an error, issues no request and
leaves the device unchanged. -/
theorem capability_gate_blocks_mutations
    (send : SendOutcome) (d : Device) (n : String) (lvl t : Nat)
    (hu sa : ℚ) (tl : Nat) :
    (has_capability d.capabilities.can_receive [Capability.customName] = false →
      resultErrored (Hub.rename send d n).result = true ∧
      (Hub.rename send d n).request = none ∧
      (Hub.rename send d n).device = d) ∧
    (has_capability d.capabilities.can_receive [Capability.isOn] = false →
      resultErrored (Hub.toggle_on_off send d).result = true ∧
      (Hub.toggle_on_off send d).request = none ∧
      (Hub.toggle_on_off send d).device = d) ∧
    (has_capability d.capabilities.can_receive [Capability.lightLevel] = false →
      resultErrored (Hub.set_light_level send d lvl).result = true ∧
      (Hub.set_light_level send d lvl).request = none ∧
      (Hub.set_light_level send d lvl).device = d) ∧
    (has_capability d.capabilities.can_receive [Capability.colorTemperature] = false →
      resultErrored (Hub.set_temperature send d t).result = true ∧
      (Hub.set_temperature send d t).request = none ∧
      (Hub.set_temperature send d t).device = d) ∧
    (has_capability d.capabilities.can_receive
        [Capability.colorHue, Capability.colorSaturation] = false →
      resultErrored (Hub.set_hue_saturation send d hu sa).result = true ∧
      (Hub.set_hue_saturation send d hu sa).request = none ∧
      (Hub.set_hue_saturation send d hu sa).device = d) ∧
    (has_capability d.capabilities.can_receive [Capability.blindsState] = false →
      resultErrored (Hub.set_target_level send d tl).result = true ∧
      (Hub.set_target_level send d tl).request = none ∧
      (Hub.set_target_level send d tl).device = d) := by
  refine ⟨?_, ?_, ?_, ?_, ?_, ?_⟩ <;> intro hcap
  · simp [Hub.rename, hcap, resultErrored]
  · simp [Hub.toggle_on_off, hcap, resultErrored]
  · simp [Hub.set_light_level, hcap, resultErrored]
  · simp [Hub.set_temperature, hcap, resultErrored]
  · simp [Hub.set_hue_saturation, hcap, resultErrored]
  · simp [Hub.set_target_level, hcap, resultErrored]

/-- Claim C2, witness: on a device with an empty `can_receive` set,
all six gated operations error out, send nothing and change nothing. -/
theorem capability_gate_blocks_mutations_witness :
    (resultErrored (Hub.rename (SendOutcome.response 200) gatedDevice "x").result = true ∧
      (Hub.rename (SendOutcome.response 200) gatedDevice "x").request = none ∧
      (Hub.rename (SendOutcome.response 200) gatedDevice "x").device = gatedDevice) ∧
    (resultErrored (Hub.toggle_on_off (SendOutcome.response 200) gatedDevice).result = true ∧
      (Hub.toggle_on_off (SendOutcome.response 200) gatedDevice).request = none ∧
      (Hub.toggle_on_off (SendOutcome.response 200) gatedDevice).device = gatedDevice) ∧
    (resultErrored (Hub.set_light_level (SendOutcome.response 200) gatedDevice 50).result = true ∧
      (Hub.set_light_level (SendOutcome.response 200) gatedDevice 50).request = none ∧
      (Hub.set_light_level (SendOutcome.response 200) gatedDevice 50).device = gatedDevice) ∧
    (resultErrored (Hub.set_temperature (SendOutcome.response 200) gatedDevice 3000).result = true ∧
      (Hub.set_temperature (SendOutcome.response 200) gatedDevice 3000).request = none ∧
      (Hub.set_temperature (SendOutcome.response 200) gatedDevice 3000).device = gatedDevice) ∧
    (resultErrored (Hub.set_hue_saturation (SendOutcome.response 200) gatedDevice 120 1).result = true ∧
      (Hub.set_hue_saturation (SendOutcome.response 200) gatedDevice 120 1).request = none ∧
      (Hub.set_hue_saturation (SendOutcome.response 200) gatedDevice 120 1).device = gatedDevice) ∧
    (resultErrored (Hub.set_target_level (SendOutcome.response 200) gatedDevice 50).result = true ∧
      (Hub.set_target_level (SendOutcome.response 200) gatedDevice 50).request = none ∧
      (Hub.set_target_level (SendOutcome.response 200) gatedDevice 50).device = gatedDevice) := by
  have h := capability_gate_blocks_mutations (SendOutcome.response 200) gatedDevice
    "x" 50 3000 120 1 50
  exact ⟨h.1 rfl, h.2.1 rfl, h.2.2.1 rfl, h.2.2.2.1 rfl, h.2.2.2.2.1 rfl, h.2.2.2.2.2 rfl⟩

/-- Claim C3: on authorize response `\x7b"code":"abc"\x7d` and token
response `\x7b"access_token":"xyz"\x7d`, `Connect::new` and
`Connect::verify` both succeed, but `verify` returns the
JSON-rendered token — the five-character string `"xyz"` INCLUDING the
quote characters (because `connect.rs` calls
`serde_json::Value::to_string`), not the bare `xyz` the claim states;
a response without `code` fails with `CodeNotFound`, and one without
`access_token` fails with `TokenNotFound`. -/
theorem connect_handshake_result :
    Connect.new "ver" (Json.obj [("code", Json.str "abc")]) =
      Except.ok { code := "\"abc\"", code_verifier := "ver" } ∧
    Connect.verify { code := "\"abc\"", code_verifier := "ver" }
        (Json.obj [("access_token", Json.str "xyz")]) = Except.ok "\"xyz\"" ∧
    (Except.ok "\"xyz\"" : Except Error String) ≠ Except.ok "xyz" ∧
    Connect.new "ver" (Json.obj [("other", Json.str "abc")]) =
      Except.error Error.codeNotFound ∧
    Connect.verify { code := "c", code_verifier := "v" }
        (Json.obj [("code", Json.str "abc")]) = Except.error Error.tokenNotFound :=
  ⟨rfl, rfl, fun h => absurd (Except.ok.inj h) (by decide), rfl, rfl⟩

/-- Claim C4, counterexample: after a successful `set_hue_saturation`
PATCH the cached `color_saturation` does NOT retain its prior value —
with prior saturation `Some 0`, hue 120 and saturation argument 1 the
operation succeeds and the cache holds `Some 120`. -/
theorem saturation_not_retained_counterexample :
    (Hub.set_hue_saturation (SendOutcome.response 200) sampleDevice 120 1).result =
      Except.ok () ∧
    sampleDevice.attributes.color_saturation = some 0 ∧
    (Hub.set_hue_saturation (SendOutcome.response 200) sampleDevice 120 1).device.attributes.color_saturation =
      some 120 ∧
    some (120 : ℚ) ≠ some (0 : ℚ) :=
  ⟨rfl, rfl, rfl, by decide⟩

/-- Claim C4, amended: after a successful `set_hue_saturation` PATCH,
the in-memory update writes the HUE argument to BOTH cached fields —
`color_hue` and `color_saturation` each become `Some hue` — so the
saturation argument is never cached and the prior `color_saturation`
is overwritten with the hue; no other field changes. -/
theorem set_hue_saturation_success_device
    (send : SendOutcome) (d : Device) (hu sa : ℚ)
    (h : (Hub.set_hue_saturation send d hu sa).result = Except.ok ()) :
    (Hub.set_hue_saturation send d hu sa).device =
      { d with attributes :=
          { d.attributes with
              color_hue := some hu
              color_saturation := some hu } } := by
  cases hcap : has_capability d.capabilities.can_receive
      [Capability.colorHue, Capability.colorSaturation]
  · simp [Hub.set_hue_saturation, hcap] at h
  · by_cases hh : 0 ≤ hu ∧ hu ≤ 360
    · by_cases hs : 0 ≤ sa ∧ sa ≤ 1
      · cases send with
        | transportError msg => simp [Hub.set_hue_saturation, hcap, hh, hs] at h
        | response st => simp [Hub.set_hue_saturation, hcap, hh, hs]
      · simp [Hub.set_hue_saturation, hcap, hh, hs] at h
    · simp [Hub.set_hue_saturation, hcap, hh] at h

/-- Claim C4 (amended), witness: the successful call on the sample
device with hue 120 and saturation 1 yields exactly the device with
both colour fields set to `Some 120`. -/
theorem set_hue_saturation_success_device_witness :
    (Hub.set_hue_saturation (SendOutcome.response 200) sampleDevice 120 1).device =
      { sampleDevice with attributes :=
          { sampleDevice.attributes with
              color_hue := some 120
              color_saturation := some 120 } } :=
  set_hue_saturation_success_device (SendOutcome.response 200) sampleDevice 120 1 rfl

/-- Claim C6: `toggle_on_off` on a device with the `IsOn` capability:
when the cached `is_on` is absent the PATCH body's attribute map is
empty (no state change is requested of the hub) and the cached
`is_on` stays absent; when it is `Some b`, a successful toggle
returns `Ok` and caches `Some (not b)`. -/
theorem toggle_requires_known_is_on
    (send : SendOutcome) (d : Device)
    (hcap : has_capability d.capabilities.can_receive [Capability.isOn] = true) :
    (d.attributes.is_on = none →
      (Hub.toggle_on_off send d).request = some [] ∧
      (Hub.toggle_on_off send d).device.attributes.is_on = none) ∧
    (∀ (b : Bool) (st : Nat), d.attributes.is_on = some b →
      (Hub.toggle_on_off (SendOutcome.response st) d).result = Except.ok () ∧
      (Hub.toggle_on_off (SendOutcome.response st) d).device.attributes.is_on =
        some (!b)) := by
  constructor
  · intro hnone
    cases send <;> simp [Hub.toggle_on_off, hcap, hnone]
  · intro b st hsome
    simp [Hub.toggle_on_off, hcap, hsome]

/-- Claim C6, witness: on the sample device with `is_on` absent the
toggle sends an empty attribute map and leaves `is_on` absent; on the
sample device with `is_on = Some false` a successful toggle caches
`Some true`. -/
theorem toggle_requires_known_is_on_witness :
    ((Hub.toggle_on_off (SendOutcome.response 200) unknownOnOffDevice).request =
        some [] ∧
      (Hub.toggle_on_off (SendOutcome.response 200) unknownOnOffDevice).device.attributes.is_on =
        none) ∧
    ((Hub.toggle_on_off (SendOutcome.response 200) sampleDevice).result =
        Except.ok () ∧
      (Hub.toggle_on_off (SendOutcome.response 200) sampleDevice).device.attributes.is_on =
        some true) :=
  ⟨(toggle_requires_known_is_on (SendOutcome.response 200) unknownOnOffDevice rfl).1 rfl,
   (toggle_requires_known_is_on (SendOutcome.response 200) sampleDevice rfl).2 false 200 rfl⟩

/-- Claim C5: when a mutation operation's PATCH succeeds, the final
device equals the input device with exactly the operation's target
attribute field(s) replaced (`rename`: `custom_name`; `toggle`:
`is_on`; `set_light_level`: `light_level`; `set_temperature`:
`color_temperature`; `set_hue_saturation`: `color_hue` and
`color_saturation`; `set_startup_behaviour`: `startup_on_off`;
`set_target_level`: `blinds_target_level`) — every other cached
attribute field is unchanged. -/
theorem mutation_success_updates_exactly_target_fields
    (send : SendOutcome) (d : Device) (n : String) (lvl t : Nat)
    (hu sa : ℚ) (beh : Startup) (tl : Nat) :
    ((Hub.rename send d n).result = Except.ok () →
      (Hub.rename send d n).device =
        { d with attributes := { d.attributes with custom_name := n } }) ∧
    ((Hub.toggle_on_off send d).result = Except.ok () →
      (Hub.toggle_on_off send d).device =
        { d with attributes :=
            { d.attributes with is_on := d.attributes.is_on.map (fun x => !x) } }) ∧
    ((Hub.set_light_level send d lvl).result = Except.ok () →
      (Hub.set_light_level send d lvl).device =
        { d with attributes := { d.attributes with light_level := some lvl } }) ∧
    ((Hub.set_temperature send d t).result = Except.ok () →
      (Hub.set_temperature send d t).device =
        { d with attributes := { d.attributes with color_temperature := some t } }) ∧
    ((Hub.set_hue_saturation send d hu sa).result = Except.ok () →
      (Hub.set_hue_saturation send d hu sa).device =
        { d with attributes :=
            { d.attributes with
                color_hue := some hu
                color_saturation := some hu } }) ∧
    ((Hub.set_startup_behaviour send d beh).result = Except.ok () →
      (Hub.set_startup_behaviour send d beh).device =
        { d with attributes := { d.attributes with startup_on_off := some beh } }) ∧
    ((Hub.set_target_level send d tl).result = Except.ok () →
      (Hub.set_target_level send d tl).device =
        { d with attributes :=
            { d.attributes with blinds_target_level := some tl } }) := by
  refine ⟨?_, ?_, ?_, ?_, ?_, ?_, ?_⟩ <;> intro h
  · cases hcap : has_capability d.capabilities.can_receive [Capability.customName]
    · simp [Hub.rename, hcap] at h
    · cases send with
      | transportError msg => simp [Hub.rename, hcap] at h
      | response st => simp [Hub.rename, hcap]
  · cases hcap : has_capability d.capabilities.can_receive [Capability.isOn]
    · simp [Hub.toggle_on_off, hcap] at h
    · cases send with
      | transportError msg => simp [Hub.toggle_on_off, hcap] at h
      | response st => simp [Hub.toggle_on_off, hcap]
  · cases hcap : has_capability d.capabilities.can_receive [Capability.lightLevel]
    · simp [Hub.set_light_level, hcap] at h
    · by_cases hl : lvl > 100
      · simp [Hub.set_light_level, hcap, hl] at h
      · cases send with
        | transportError msg => simp [Hub.set_light_level, hcap, hl] at h
        | response st => simp [Hub.set_light_level, hcap, hl]
  · cases hcap : has_capability d.capabilities.can_receive [Capability.colorTemperature]
    · simp [Hub.set_temperature, hcap] at h
    · cases hmin : d.attributes.color_temperature_min with
      | none => simp [Hub.set_temperature, hcap, hmin] at h
      | some tmin =>
        cases hmax : d.attributes.color_temperature_max with
        | none => simp [Hub.set_temperature, hcap, hmin, hmax] at h
        | some tmax =>
          by_cases hr : tmax ≤ t ∧ t ≤ tmin
          · cases send with
            | transportError msg => simp [Hub.set_temperature, hcap, hmin, hmax, hr] at h
            | response st => simp [Hub.set_temperature, hcap, hmin, hmax, hr]
          · simp [Hub.set_temperature, hcap, hmin, hmax, hr] at h
  · cases hcap : has_capability d.capabilities.can_receive
        [Capability.colorHue, Capability.colorSaturation]
    · simp [Hub.set_hue_saturation, hcap] at h
    · by_cases hh : 0 ≤ hu ∧ hu ≤ 360
      · by_cases hs : 0 ≤ sa ∧ sa ≤ 1
        · cases send with
          | transportError msg => simp [Hub.set_hue_saturation, hcap, hh, hs] at h
          | response st => simp [Hub.set_hue_saturation, hcap, hh, hs]
        · simp [Hub.set_hue_saturation, hcap, hh, hs] at h
      · simp [Hub.set_hue_saturation, hcap, hh] at h
  · cases send with
    | transportError msg => simp [Hub.set_startup_behaviour] at h
    | response st => simp [Hub.set_startup_behaviour]
  · cases hcap : has_capability d.capabilities.can_receive [Capability.blindsState]
    · simp [Hub.set_target_level, hcap] at h
    · by_cases hl : tl > 100
      · simp [Hub.set_target_level, hcap, hl] at h
      · cases send with
        | transportError msg => simp [Hub.set_target_level, hcap, hl] at h
        | response st => simp [Hub.set_target_level, hcap, hl]

/-- Claim C5, witness: successful runs of all seven operations on the
fully-capable sample device produce exactly the targeted field
updates. -/
theorem mutation_success_updates_exactly_target_fields_witness :
    (Hub.rename (SendOutcome.response 200) sampleDevice "newname").device =
      { sampleDevice with attributes :=
          { sampleDevice.attributes with custom_name := "newname" } } ∧
    (Hub.toggle_on_off (SendOutcome.response 200) sampleDevice).device =
      { sampleDevice with attributes :=
          { sampleDevice.attributes with
              is_on := sampleDevice.attributes.is_on.map (fun x => !x) } } ∧
    (Hub.set_light_level (SendOutcome.response 200) sampleDevice 75).device =
      { sampleDevice with attributes :=
          { sampleDevice.attributes with light_level := some 75 } } ∧
    (Hub.set_temperature (SendOutcome.response 200) sampleDevice 3000).device =
      { sampleDevice with attributes :=
          { sampleDevice.attributes with color_temperature := some 3000 } } ∧
    (Hub.set_hue_saturation (SendOutcome.response 200) sampleDevice 120 1).device =
      { sampleDevice with attributes :=
          { sampleDevice.attributes with
              color_hue := some 120
              color_saturation := some 120 } } ∧
    (Hub.set_startup_behaviour (SendOutcome.response 200) sampleDevice Startup.startOff).device =
      { sampleDevice with attributes :=
          { sampleDevice.attributes with startup_on_off := some Startup.startOff } } ∧
    (Hub.set_target_level (SendOutcome.response 200) sampleDevice 40).device =
      { sampleDevice with attributes :=
          { sampleDevice.attributes with blinds_target_level := some 40 } } := by
  have h := mutation_success_updates_exactly_target_fields (SendOutcome.response 200)
    sampleDevice "newname" 75 3000 120 1 Startup.startOff 40
  exact ⟨h.1 rfl, h.2.1 rfl, h.2.2.1 rfl, h.2.2.2.1 rfl, h.2.2.2.2.1 rfl,
    h.2.2.2.2.2.1 rfl, h.2.2.2.2.2.2 rfl⟩

/-- Claim C7: `set_temperature` (capability present) errors with no
request and no change when either cached temperature bound is absent;
with both bounds present, the request is issued exactly when
`max ≤ t ∧ t ≤ min` (the device-reported bounds read as the
descending range `max..=min`), and any `t` outside that range is
rejected with an error, no request and no change. -/
theorem set_temperature_bounds_check
    (send : SendOutcome) (d : Device) (t : Nat)
    (hcap : has_capability d.capabilities.can_receive
      [Capability.colorTemperature] = true) :
    ((d.attributes.color_temperature_min = none ∨
        d.attributes.color_temperature_max = none) →
      resultErrored (Hub.set_temperature send d t).result = true ∧
      (Hub.set_temperature send d t).request = none ∧
      (Hub.set_temperature send d t).device = d) ∧
    (∀ tmin tmax, d.attributes.color_temperature_min = some tmin →
      d.attributes.color_temperature_max = some tmax →
      ((Hub.set_temperature send d t).request ≠ none ↔ tmax ≤ t ∧ t ≤ tmin) ∧
      (¬(tmax ≤ t ∧ t ≤ tmin) →
        resultErrored (Hub.set_temperature send d t).result = true ∧
        (Hub.set_temperature send d t).request = none ∧
        (Hub.set_temperature send d t).device = d)) := by
  constructor
  · intro hmiss
    rcases hmiss with hmin | hmax
    · simp [Hub.set_temperature, hcap, hmin, resultErrored]
    · cases hmin : d.attributes.color_temperature_min with
      | none => simp [Hub.set_temperature, hcap, hmin, resultErrored]
      | some tmin => simp [Hub.set_temperature, hcap, hmin, hmax, resultErrored]
  · intro tmin tmax hmin hmax
    by_cases hr : tmax ≤ t ∧ t ≤ tmin
    · constructor
      · cases send <;> simp [Hub.set_temperature, hcap, hmin, hmax, hr]
      · intro hcon
        exact absurd hr hcon
    · simp [Hub.set_temperature, hcap, hmin, hmax, hr, resultErrored]

/-- Claim C7, witness: the sample device reports `min = 4000` and
`max = 2202`; `t = 3000` lies in the descending range and the request
is issued, while `t = 5000` is rejected with an error, no request and
an unchanged device. -/
theorem set_temperature_bounds_check_witness :
    (Hub.set_temperature (SendOutcome.response 200) sampleDevice 3000).request ≠ none ∧
    (resultErrored (Hub.set_temperature (SendOutcome.response 200) sampleDevice 5000).result = true ∧
      (Hub.set_temperature (SendOutcome.response 200) sampleDevice 5000).request = none ∧
      (Hub.set_temperature (SendOutcome.response 200) sampleDevice 5000).device = sampleDevice) := by
  have h1 := (set_temperature_bounds_check (SendOutcome.response 200) sampleDevice
    3000 rfl).2 4000 2202 rfl rfl
  have h2 := (set_temperature_bounds_check (SendOutcome.response 200) sampleDevice
    5000 rfl).2 4000 2202 rfl rfl
  exact ⟨h1.1.mpr (by decide), h2.2 (by decide)⟩

/-- Claim C8: for `set_light_level` and `set_target_level` on a device
with the required capability, every level in `[0, 100]` passes
validation (the PATCH request carrying it is issued), and every level
of at least 101 is rejected with an error, no request and an
unchanged device. -/
theorem level_range_check (send : SendOutcome) (d : Device) (lvl : Nat) :
    (has_capability d.capabilities.can_receive [Capability.lightLevel] = true →
      (lvl ≤ 100 →
        (Hub.set_light_level send d lvl).request =
          some [("lightLevel", AttrVal.n lvl)]) ∧
      (101 ≤ lvl →
        resultErrored (Hub.set_light_level send d lvl).result = true ∧
        (Hub.set_light_level send d lvl).request = none ∧
        (Hub.set_light_level send d lvl).device = d)) ∧
    (has_capability d.capabilities.can_receive [Capability.blindsState] = true →
      (lvl ≤ 100 →
        (Hub.set_target_level send d lvl).request =
          some [("blindsTargetLevel", AttrVal.n lvl)]) ∧
      (101 ≤ lvl →
        resultErrored (Hub.set_target_level send d lvl).result = true ∧
        (Hub.set_target_level send d lvl).request = none ∧
        (Hub.set_target_level send d lvl).device = d)) := by
  constructor <;> intro hcap <;> constructor <;> intro hl
  · have hnot : ¬(lvl > 100) := by omega
    cases send <;> simp [Hub.set_light_level, hcap, hnot]
  · have hgt : lvl > 100 := by omega
    simp [Hub.set_light_level, hcap, hgt, resultErrored]
  · have hnot : ¬(lvl > 100) := by omega
    cases send <;> simp [Hub.set_target_level, hcap, hnot]
  · have hgt : lvl > 100 := by omega
    simp [Hub.set_target_level, hcap, hgt, resultErrored]

/-- Claim C8, witness: on the sample device level 100 passes
validation for both operations and level 101 is rejected by both. -/
theorem level_range_check_witness :
    (Hub.set_light_level (SendOutcome.response 200) sampleDevice 100).request =
      some [("lightLevel", AttrVal.n 100)] ∧
    (resultErrored (Hub.set_light_level (SendOutcome.response 200) sampleDevice 101).result = true ∧
      (Hub.set_light_level (SendOutcome.response 200) sampleDevice 101).request = none ∧
      (Hub.set_light_level (SendOutcome.response 200) sampleDevice 101).device = sampleDevice) ∧
    (Hub.set_target_level (SendOutcome.response 200) sampleDevice 100).request =
      some [("blindsTargetLevel", AttrVal.n 100)] ∧
    (resultErrored (Hub.set_target_level (SendOutcome.response 200) sampleDevice 101).result = true ∧
      (Hub.set_target_level (SendOutcome.response 200) sampleDevice 101).request = none ∧
      (Hub.set_target_level (SendOutcome.response 200) sampleDevice 101).device = sampleDevice) := by
  have h100 := level_range_check (SendOutcome.response 200) sampleDevice 100
  have h101 := level_range_check (SendOutcome.response 200) sampleDevice 101
  exact ⟨(h100.1 rfl).1 (by decide), (h101.1 rfl).2 (by decide),
    (h100.2 rfl).1 (by decide), (h101.2 rfl).2 (by decide)⟩

/-- Claim C9: whenever `set_hue_saturation(device, hue, saturation)`
succeeds, the cached `color_saturation` equals `Some hue` — the HUE
argument — regardless of the saturation argument, and the cached
`color_hue` also equals `Some hue` (lines 342-343 of `hub.rs`). -/
theorem set_hue_saturation_caches_hue_as_saturation
    (send : SendOutcome) (d : Device) (hu sa : ℚ)
    (h : (Hub.set_hue_saturation send d hu sa).result = Except.ok ()) :
    (Hub.set_hue_saturation send d hu sa).device.attributes.color_saturation =
      some hu ∧
    (Hub.set_hue_saturation send d hu sa).device.attributes.color_hue = some hu := by
  cases hcap : has_capability d.capabilities.can_receive
      [Capability.colorHue, Capability.colorSaturation]
  · simp [Hub.set_hue_saturation, hcap] at h
  · by_cases hh : 0 ≤ hu ∧ hu ≤ 360
    · by_cases hs : 0 ≤ sa ∧ sa ≤ 1
      · cases send with
        | transportError msg => simp [Hub.set_hue_saturation, hcap, hh, hs] at h
        | response st => simp [Hub.set_hue_saturation, hcap, hh, hs]
      · simp [Hub.set_hue_saturation, hcap, hh, hs] at h
    · simp [Hub.set_hue_saturation, hcap, hh] at h

/-- Claim C9, witness: a successful call with hue 120 and saturation
argument 1 leaves `color_saturation = Some 120` and
`color_hue = Some 120` in the cache. -/
theorem set_hue_saturation_caches_hue_as_saturation_witness :
    (Hub.set_hue_saturation (SendOutcome.response 200) sampleDevice 120 1).device.attributes.color_saturation =
      some 120 ∧
    (Hub.set_hue_saturation (SendOutcome.response 200) sampleDevice 120 1).device.attributes.color_hue =
      some 120 :=
  set_hue_saturation_caches_hue_as_saturation (SendOutcome.response 200)
    sampleDevice 120 1 rfl

/-- Claim C10: `deserialize_datetime_optional` never propagates a
failure — for every datetime parser and every JSON input it returns
`Ok`, and on a string input it returns `Ok (parse s)`, so a string
that fails to parse yields `Ok none` instead of an error. -/
theorem deserialize_datetime_optional_never_fails {α : Type}
    (parse : String → Option α) :
    (∀ input : Json, ∃ v, deserialize_datetime_optional parse input = Except.ok v) ∧
    (∀ s : String,
      deserialize_datetime_optional parse (Json.str s) = Except.ok (parse s)) := by
  have hstr : ∀ s : String,
      deserialize_datetime_optional parse (Json.str s) = Except.ok (parse s) := by
    intro s
    cases hp : parse s <;>
      simp [deserialize_datetime_optional, deserialize_datetime, string_deserialize, hp]
  refine ⟨?_, hstr⟩
  intro input
  cases input with
  | str s => exact ⟨parse s, hstr s⟩
  | null => exact ⟨none, rfl⟩
  | bool b => exact ⟨none, rfl⟩
  | num n => exact ⟨none, rfl⟩
  | obj fields => exact ⟨none, rfl⟩

end Dirigera
